import Mathlib

/-!
Verification of the multi-server MCP tool client (`client.py`) and its two
tool servers (`mathserver.py`, `weather.py`).

The embedding translates the Python source into executable Lean definitions:
* the pure tool functions of the two servers become Lean functions;
* `client.py`'s `main()` coroutine becomes a deterministic function from an
  environment (the outcomes of its fallible awaits) to the list of observable
  events it produces, with every `try`/`except` of the source rendered as a
  total match on an `Except` value;
* `asyncio.wait_for` becomes a timed-result function;
* the library-side catalog aggregation (`MultiServerMCPClient.get_tools`) and
  the react-agent invocation loop are not present under `src/`, so they are
  modelled from the spec where a claim needs them (marked in doc comments).
-/

/-! ## The math server (src/mathserver.py) -/

namespace MathServer

/-- `add(a,b) -> a+b` from `mathserver.py`; Python integers are unbounded, so
they embed as `Int`. -/
def add (a b : Int) : Int := a + b

/-- `multiply(a,b) -> a*b` from `mathserver.py`. -/
def multiply (a b : Int) : Int := a * b

end MathServer

/-! ## The weather server (src/weather.py) -/

namespace WeatherServer

/-- `get_weather(location) -> str` from `weather.py`: returns a constant
string, never inspecting `location`. -/
def get_weather (location : String) : String := "It's always rains in Pune"

end WeatherServer

/-! ## Python-level exceptions and `asyncio.wait_for` -/

/-- The exceptions `main()` distinguishes: `asyncio.TimeoutError` versus any
other `Exception` (carrying its message). -/
inductive PyExc where
  | timeoutError
  | exc (msg : String)
  deriving DecidableEq, Repr

/-- Result of an awaited operation together with the wall-clock duration the
caller was blocked. -/
structure TimedResult (α : Type) where
  elapsed : Nat
  outcome : Except PyExc α
  deriving Repr

/-- `asyncio.wait_for(op, timeout)`: if the inner operation finishes within
the deadline the caller is blocked for the operation's own duration and sees
its result; otherwise the caller is unblocked at the deadline with
`asyncio.TimeoutError`, the inner operation being abandoned. -/
def wait_for (timeout : Nat) (innerElapsed : Nat) (inner : Except PyExc α) :
    TimedResult α :=
  if innerElapsed ≤ timeout then ⟨innerElapsed, inner⟩
  else ⟨timeout, .error .timeoutError⟩

/-- The initial catalog fetch of `client.py` line 58:
`await asyncio.wait_for(client.get_tools(), timeout=10)`. -/
def initialFetch (innerElapsed : Nat) (inner : Except PyExc (List String)) :
    TimedResult (List String) :=
  wait_for 10 innerElapsed inner

/-! ## The client script (src/client.py) -/

/-- Outcome of one awaited step as `main()` observes it: the value, an
`asyncio.TimeoutError`, or another exception. -/
inductive StepOutcome where
  | success (content : String)
  | timeout
  | failure (msg : String)
  deriving DecidableEq, Repr

/-- The environment `main()` runs in: the value of `os.getenv` for the Groq
key, and the outcome of each fallible await (tool fetch, agent construction,
and the three `agent.ainvoke` task steps). -/
structure Env where
  groqKeyVar : Option String
  fetch : Except PyExc (List String)
  agentOk : Bool
  mathStep : StepOutcome
  weatherStep : StepOutcome
  githubStep : StepOutcome
  deriving Repr

/-- The observable events of `main()`, in program order: its log lines and
the external calls it issues. -/
inductive Event where
  | logInit
  | warnMissingKey
  | fetchTools
  | toolsLoaded (tools : List String)
  | logFetchTimeout
  | logFetchFailed (msg : String)
  | agentCreated
  | agentFailed
  | invoke (task : String)
  | stepSucceeded (task : String) (content : String)
  | stepTimeout (task : String)
  | stepFailed (task : String) (msg : String)
  | done
  deriving DecidableEq, Repr

/-- `os.environ["GROQ_API_KEY"] = os.getenv("GROQ_API_KEY", "")`
(client.py line 50): the stored key, with the empty-string default. -/
def storedGroqKey (e : Env) : String := e.groqKeyVar.getD ""

/-- Lines 51-52: the key check only logs a warning when the stored key is
empty; it does not raise or return. -/
def keyCheckEvents (e : Env) : List Event :=
  if storedGroqKey e = "" then [.warnMissingKey] else []

/-- A `StepOutcome` as the `Except` value the corresponding `await` yields. -/
def stepExcept (o : StepOutcome) : Except PyExc String :=
  match o with
  | .success c => .ok c
  | .timeout => .error .timeoutError
  | .failure m => .error (.exc m)

/-- `client.get_tools()` under `asyncio.wait_for` as `main()` observes it:
the tool list, `asyncio.TimeoutError`, or another exception, as supplied by
the environment. -/
def getToolsStep (e : Env) : Except PyExc (List String) := e.fetch

/-- One task invocation block of `main()` (Steps 3, 4 and the github step):
log "Invoking ...", await the agent under a deadline, and handle the three
outcomes; `except asyncio.TimeoutError` and `except Exception` both only log,
so the block always falls through to the next statement. -/
def runStep (task : String) (o : StepOutcome) : List Event :=
  [.invoke task] ++
  match stepExcept o with
  | .ok c => [.stepSucceeded task c]
  | .error .timeoutError => [.stepTimeout task]
  | .error (.exc m) => [.stepFailed task m]

/-- The full `main()` coroutine of `client.py` as the list of events it
produces.  Every fallible await of the source sits inside a `try`/`except`
whose handlers either `return` (fetch, agent construction) or only log (the
three task steps); the embedding renders each handler as a total match, so
`mainTrace` is a total function: `main()` returns normally on every
environment. -/
def mainTrace (e : Env) : List Event :=
  [.logInit] ++ keyCheckEvents e ++ [.fetchTools] ++
  match getToolsStep e with
  | .error .timeoutError => [.logFetchTimeout]
  | .error (.exc m) => [.logFetchFailed m]
  | .ok ts =>
    [.toolsLoaded ts] ++
    (if e.agentOk then
      [.agentCreated] ++
      runStep "math" e.mathStep ++
      runStep "weather" e.weatherStep ++
      runStep "github" e.githubStep ++
      [.done]
    else [.agentFailed])

/-- The process exit status of `python client.py`: `main()` returns normally
on every environment (`mainTrace` is total and every exception inside `main`
is consumed by a handler), the `__main__` wrapper catches
`KeyboardInterrupt`, and the script contains no `sys.exit` and no uncaught
raise, so CPython always exits with status 0. -/
def scriptExitCode (e : Env) : Nat := (fun _ => 0) (mainTrace e)

/-! ## Catalog aggregation (Multi-Server Client) -/

/-- State of one configured server's channel at `getTools()` time: live and
advertising a tool list, or unreachable. -/
inductive ChannelState where
  | live (tools : List String)
  | offline
  deriving DecidableEq, Repr

/-- Whether a channel state is live. -/
def ChannelState.isLive : ChannelState → Bool
  | .live _ => true
  | .offline => false

/-- The (tool name, owning server) pairs advertised by the live servers, in
registration order. -/
def liveEntries : List (String × ChannelState) → List (String × String)
  | [] => []
  | (name, .live ts) :: rest => ts.map (fun t => (t, name)) ++ liveEntries rest
  | (_, .offline) :: rest => liveEntries rest

/-- The owner a merged catalog resolves a tool name to: the first-registered
entry for that name (first-registered-wins collision policy). -/
def catalogOwner (cat : List (String × String)) (n : String) : Option String :=
  cat.lookup n

/-- Modelled from the spec: `MultiServerMCPClient.get_tools` — the
Multi-Server Client's catalog aggregation is library code not present under
`src/`; per the spec it "fetches each live channel's descriptors
(concurrently), merges them, applies the collision policy, and returns the
merged result; fails with `AggregationError` only if zero channels yield a
usable catalog".  `Except.error ()` stands for `AggregationError`. -/
def getToolsMerged (servers : List (String × ChannelState)) :
    Except Unit (List (String × String)) :=
  if servers.all (fun p => !p.2.isLive) then .error ()
  else .ok (liveEntries servers)

/-- A tool name is advertised by some live server of the configuration. -/
def advertisedByLive : List (String × ChannelState) → String → Bool
  | [], _ => false
  | (_, ChannelState.live ts) :: rest, n =>
      ts.any (fun t => n == t) || advertisedByLive rest n
  | (_, ChannelState.offline) :: rest, n => advertisedByLive rest n

/-! ## Invocation Orchestrator (react-agent loop) -/

/-- Outcome tag of one tool call, from the spec's `ToolCallResult`. -/
inductive OutcomeTag where
  | success
  | timeout
  | transport_error
  | tool_error
  deriving DecidableEq, Repr

/-- One tool-call result: its outcome tag and payload or error detail. -/
structure ToolCallResult where
  tag : OutcomeTag
  detail : String
  deriving DecidableEq, Repr

/-- What the decision-maker emits when handed the session so far: another
tool call, or a terminal answer. -/
inductive Decision where
  | callTool (name : String)
  | finish (answer : String)
  deriving DecidableEq, Repr

/-- Terminal phase of one orchestrated task. -/
inductive OrchPhase where
  | completed (answer : String)
  | failed
  deriving DecidableEq, Repr

/-- Modelled from the spec: the Invocation Orchestrator's decide/call loop —
the react-agent loop (`create_react_agent` + `agent.ainvoke`) is library code
not present under `src/`.  Per the spec: the decision-maker is handed the
session so far and emits a decision; a tool call's result — success, timeout
or transport error alike — is recorded in the session and reported back to
the decision-maker on the next iteration; the task fails only when the
maximum step count (`fuel`) is exceeded. -/
def runOrch (decider : List ToolCallResult → Decision)
    (execTool : String → ToolCallResult) :
    Nat → List ToolCallResult → OrchPhase × List ToolCallResult
  | 0, session => (.failed, session)
  | fuel + 1, session =>
    match decider session with
    | .finish a => (.completed a, session)
    | .callTool name => runOrch decider execTool fuel (session ++ [execTool name])

/-! ## Helper lemmas -/

/-- `catalogOwner` is defined exactly when some entry carries the name. -/
theorem catalogOwner_isSome_eq_any (cat : List (String × String)) (n : String) :
    (catalogOwner cat n).isSome = cat.any (fun p => n == p.1) := by
  induction cat with
  | nil => rfl
  | cons p rest ih =>
    obtain ⟨k, v⟩ := p
    by_cases h : n = k
    · subst h; simp [catalogOwner, List.lookup]
    · simp only [catalogOwner, List.lookup, List.any_cons] at *
      have hbeq : (n == k) = false := by simpa using h
      simp [hbeq, ih]

/-- A name has an owner in the merged live entries exactly when some live
server advertises it. -/
theorem liveEntries_any_eq_advertised (servers : List (String × ChannelState))
    (n : String) :
    (liveEntries servers).any (fun p => n == p.1) = advertisedByLive servers n := by
  induction servers with
  | nil => rfl
  | cons p rest ih =>
    obtain ⟨name, st⟩ := p
    cases st with
    | live ts =>
      have hmap : ((ts.map (fun t => (t, name))).any fun p => n == p.1)
          = ts.any (fun t => n == t) := by
        induction ts with
        | nil => rfl
        | cons t tr iht => simp only [List.map_cons, List.any_cons, iht]
      simp only [liveEntries, advertisedByLive, List.any_append, hmap, ih]
    | offline => simpa [liveEntries, advertisedByLive] using ih

/-- Events already in the session survive the rest of the orchestrator run. -/
theorem runOrch_session_monotone (decider : List ToolCallResult → Decision)
    (execTool : String → ToolCallResult) (fuel : Nat)
    (session : List ToolCallResult) (x : ToolCallResult) (hx : x ∈ session) :
    x ∈ (runOrch decider execTool fuel session).2 := by
  induction fuel generalizing session with
  | zero => simpa [runOrch] using hx
  | succ k ih =>
    simp only [runOrch]
    cases hdec : decider session with
    | finish a => simpa using hx
    | callTool name => exact ih _ (List.mem_append_left _ hx)

/-- The key-check warning is the only source of `warnMissingKey`. -/
theorem warnMissingKey_not_in_runStep (task : String) (o : StepOutcome) :
    Event.warnMissingKey ∉ runStep task o := by
  cases o <;> simp [runStep, stepExcept]

/-- `agentCreated` never arises from a task-invocation block. -/
theorem agentCreated_not_in_runStep (task : String) (o : StepOutcome) :
    Event.agentCreated ∉ runStep task o := by
  cases o <;> simp [runStep, stepExcept]

/-! ## Claim theorems -/

/-- C2: the math server's `add` returns `a+b` and `multiply` returns `a*b`
for all integers; in particular `multiply(4,5) = 20` and then
`add(20,20) = 40`, so the plan for "What is 4*5+20?" yields 40. -/
theorem mathserver_add_multiply_correct :
    (∀ a b : Int, MathServer.add a b = a + b) ∧
    (∀ a b : Int, MathServer.multiply a b = a * b) ∧
    MathServer.multiply 4 5 = 20 ∧ MathServer.add 20 20 = 40 :=
  ⟨fun _ _ => rfl, fun _ _ => rfl, rfl, rfl⟩

/-- C3: `get_weather("Pune")` returns the literal configured string. -/
theorem get_weather_pune :
    WeatherServer.get_weather "Pune" = "It's always rains in Pune" := rfl

/-- C9: `get_weather` never inspects its location argument: any two inputs
produce the same output. -/
theorem get_weather_input_independent (l1 l2 : String) :
    WeatherServer.get_weather l1 = WeatherServer.get_weather l2 := rfl

/-- C5: the initial catalog fetch runs under `asyncio.wait_for` with a
10-second deadline, so the caller is never blocked past the deadline however
the underlying servers behave, and past the deadline the caller observes
`asyncio.TimeoutError`. -/
theorem initialFetch_bounded_by_deadline (d : Nat)
    (r : Except PyExc (List String)) :
    (initialFetch d r).elapsed ≤ 10 ∧
    (10 < d → (initialFetch d r).outcome = .error .timeoutError) := by
  constructor
  · by_cases h : d ≤ 10
    · simp [initialFetch, wait_for, h]
    · simp [initialFetch, wait_for, h]
  · intro h
    have h' : ¬ d ≤ 10 := by omega
    simp [initialFetch, wait_for, h']

/-- Witness for C5: a fetch whose servers would take 99 seconds is cut off
at the 10-second deadline with a timeout outcome. -/
theorem initialFetch_bounded_by_deadline_witness :
    (initialFetch 99 (.ok ["add"])).elapsed ≤ 10 ∧
    (initialFetch 99 (.ok ["add"])).outcome = .error .timeoutError :=
  ⟨(initialFetch_bounded_by_deadline 99 (.ok ["add"])).1,
   (initialFetch_bounded_by_deadline 99 (.ok ["add"])).2 (by decide)⟩

/-! ## Concrete configurations used by witnesses and counterexamples -/

/-- A two-server configuration with the math server live and the HTTP-backed
weather server offline. -/
def demoServers : List (String × ChannelState) :=
  [("math", ChannelState.live ["add", "multiply"]),
   ("weather", ChannelState.offline)]

/-- An environment where the initial tool fetch fails because every server is
unreachable. -/
def envAllDown : Env :=
  ⟨some "key", .error (.exc "All connections failed"), true,
    .timeout, .timeout, .timeout⟩

/-- An environment where `GROQ_API_KEY` is absent and everything else
succeeds. -/
def envNoKey : Env :=
  ⟨none, .ok ["add", "multiply", "get_weather"], true,
    .success "40", .success "It's always rains in Pune",
    .success "no open issues"⟩

/-- An environment where the fetch fails with a connection exception. -/
def envWeatherDown : Env :=
  ⟨some "key", .error (.exc "weather server unreachable"), true,
    .timeout, .timeout, .timeout⟩

/-- When the fetch fails, the trace is the prefix up to the fetch plus one
failure log line, and `main` returns there. -/
theorem mainTrace_fetch_error (e : Env) (pe : PyExc)
    (hf : e.fetch = .error pe) :
    mainTrace e = [.logInit] ++ keyCheckEvents e ++ [.fetchTools] ++
      (match pe with
       | .timeoutError => [Event.logFetchTimeout]
       | .exc m => [Event.logFetchFailed m]) := by
  cases pe <;> simp [mainTrace, getToolsStep, hf]

/-- C4: in the orchestrator's loop, a tool call that times out or fails in
transport is recorded in the session and the loop continues with the failure
reported to the decision-maker as the last session entry — the step failure
never terminates the task by itself, and the failing result is part of the
session for the rest of the run. -/
theorem orch_step_failure_recoverable
    (decider : List ToolCallResult → Decision)
    (execTool : String → ToolCallResult) (fuel : Nat)
    (session : List ToolCallResult) (name : String)
    (hdec : decider session = .callTool name)
    (hfail : (execTool name).tag = .timeout ∨
      (execTool name).tag = .transport_error) :
    runOrch decider execTool (fuel + 1) session =
      runOrch decider execTool fuel (session ++ [execTool name]) ∧
    execTool name ∈ (runOrch decider execTool (fuel + 1) session).2 := by
  have hstep : runOrch decider execTool (fuel + 1) session =
      runOrch decider execTool fuel (session ++ [execTool name]) := by
    simp [runOrch, hdec]
  refine ⟨hstep, ?_⟩
  rw [hstep]
  exact runOrch_session_monotone _ _ _ _ _
    (List.mem_append_right _ (List.mem_singleton.mpr rfl))

/-- Witness for C4: a decision-maker that calls `get_weather` once against a
transport that always times out; the step is recorded and the run goes on. -/
theorem orch_step_failure_recoverable_witness :
    runOrch
        (fun s => if s.length = 0 then Decision.callTool "get_weather"
          else Decision.finish "done")
        (fun _ => ⟨OutcomeTag.timeout, "deadline exceeded"⟩) 2 [] =
      runOrch
        (fun s => if s.length = 0 then Decision.callTool "get_weather"
          else Decision.finish "done")
        (fun _ => ⟨OutcomeTag.timeout, "deadline exceeded"⟩) 1
        ([] ++ [⟨OutcomeTag.timeout, "deadline exceeded"⟩]) ∧
    (⟨OutcomeTag.timeout, "deadline exceeded"⟩ : ToolCallResult) ∈
      (runOrch
        (fun s => if s.length = 0 then Decision.callTool "get_weather"
          else Decision.finish "done")
        (fun _ => ⟨OutcomeTag.timeout, "deadline exceeded"⟩) 2 []).2 :=
  orch_step_failure_recoverable
    (fun s => if s.length = 0 then Decision.callTool "get_weather"
      else Decision.finish "done")
    (fun _ => ⟨OutcomeTag.timeout, "deadline exceeded"⟩) 1 [] "get_weather"
    (by decide) (Or.inl rfl)

/-- C8: `getTools` is a deterministic function of the servers' catalogs: two
calls with no server-side change yield the same merged catalog, with the same
names resolving to the same owners. -/
theorem getTools_idempotent (servers : List (String × ChannelState))
    (cat1 cat2 : List (String × String))
    (h1 : getToolsMerged servers = .ok cat1)
    (h2 : getToolsMerged servers = .ok cat2) :
    cat1 = cat2 ∧ ∀ n, catalogOwner cat1 n = catalogOwner cat2 n := by
  have h : cat1 = cat2 := Except.ok.inj (h1.symm.trans h2)
  exact ⟨h, fun n => by rw [h]⟩

/-- Witness for C8: two fetches against the demo configuration agree. -/
theorem getTools_idempotent_witness :
    ([("add", "math"), ("multiply", "math")] : List (String × String)) =
      [("add", "math"), ("multiply", "math")] ∧
    catalogOwner [("add", "math"), ("multiply", "math")] "add" =
      catalogOwner [("add", "math"), ("multiply", "math")] "add" := by
  have h := getTools_idempotent demoServers
    [("add", "math"), ("multiply", "math")]
    [("add", "math"), ("multiply", "math")] rfl rfl
  exact ⟨h.1, h.2 "add"⟩

/-- Membership in the key-check events. -/
theorem mem_keyCheckEvents (e : Env) (x : Event) :
    x ∈ keyCheckEvents e ↔ storedGroqKey e = "" ∧ x = Event.warnMissingKey := by
  unfold keyCheckEvents
  split <;> simp_all

/-- When the fetch succeeds, the trace is the prefix up to the fetch followed
by the loaded-tools log and the agent part. -/
theorem mainTrace_fetch_ok (e : Env) (ts : List String)
    (hf : e.fetch = .ok ts) :
    mainTrace e = [.logInit] ++ keyCheckEvents e ++ [.fetchTools] ++
      ([.toolsLoaded ts] ++
        (if e.agentOk then
          [.agentCreated] ++ runStep "math" e.mathStep ++
          runStep "weather" e.weatherStep ++ runStep "github" e.githubStep ++
          [.done]
        else [.agentFailed])) := by
  simp [mainTrace, getToolsStep, hf]

/-- `getTools` aggregation fails exactly when no channel is live. -/
theorem getToolsMerged_error_iff (servers : List (String × ChannelState)) :
    getToolsMerged servers = .error () ↔
      ∀ p ∈ servers, p.2.isLive = false := by
  unfold getToolsMerged
  by_cases h : (servers.all fun p => !p.2.isLive) = true
  · rw [if_pos h]
    simp only [List.all_eq_true, Bool.not_eq_true'] at h
    exact ⟨fun _ => h, fun _ => rfl⟩
  · rw [if_neg h]
    simp only [List.all_eq_true, Bool.not_eq_true'] at h
    constructor
    · intro hcontra
      exact absurd hcontra (by simp)
    · intro hall
      exact absurd hall h

/-- With at least one live channel, `getTools` returns the merged catalog of
the live servers. -/
theorem getToolsMerged_ok_of_live (servers : List (String × ChannelState))
    (hlive : ∃ p ∈ servers, p.2.isLive = true) :
    getToolsMerged servers = .ok (liveEntries servers) := by
  have h : ¬ (servers.all fun p => !p.2.isLive) = true := by
    simp only [List.all_eq_true, Bool.not_eq_true']
    push_neg
    obtain ⟨⟨a, b⟩, hp, hl⟩ := hlive
    exact ⟨⟨a, b⟩, hp, by simp [hl]⟩
  simp [getToolsMerged, h]

/-- C1: the aggregation fails with `AggregationError` exactly when zero
channels are live; with at least one live server it succeeds and the merged
catalog has an owner for a tool name exactly when a reachable server
advertises it; and in `main()` a failed fetch is caught and logged, the
process exiting normally with status 0 rather than by exception. -/
theorem getTools_tolerates_offline_servers
    (servers : List (String × ChannelState)) (e : Env) :
    (getToolsMerged servers = .error () ↔
      ∀ p ∈ servers, p.2.isLive = false) ∧
    ((∃ p ∈ servers, p.2.isLive = true) →
      getToolsMerged servers = .ok (liveEntries servers) ∧
      ∀ n, (catalogOwner (liveEntries servers) n).isSome =
        advertisedByLive servers n) ∧
    (∀ pe, e.fetch = Except.error pe →
      scriptExitCode e = 0 ∧
      (Event.logFetchTimeout ∈ mainTrace e ∨
        ∃ m, Event.logFetchFailed m ∈ mainTrace e)) := by
  refine ⟨getToolsMerged_error_iff servers, ?_, ?_⟩
  · intro hlive
    refine ⟨getToolsMerged_ok_of_live servers hlive, fun n => ?_⟩
    rw [catalogOwner_isSome_eq_any, liveEntries_any_eq_advertised]
  · intro pe hf
    refine ⟨rfl, ?_⟩
    cases pe with
    | timeoutError =>
      left
      rw [mainTrace_fetch_error e .timeoutError hf]
      simp
    | exc m =>
      right
      exact ⟨m, by rw [mainTrace_fetch_error e (.exc m) hf]; simp⟩

/-- Witness for C1: math live, the HTTP weather server offline — the merged
catalog is exactly the math server's tools, and a failed fetch at the client
still ends with exit status 0. -/
theorem getTools_tolerates_offline_servers_witness :
    getToolsMerged demoServers =
      .ok [("add", "math"), ("multiply", "math")] ∧
    (catalogOwner (liveEntries demoServers) "multiply").isSome =
      advertisedByLive demoServers "multiply" ∧
    scriptExitCode envWeatherDown = 0 := by
  have h := getTools_tolerates_offline_servers demoServers envWeatherDown
  exact ⟨(h.2.1 (by decide)).1, (h.2.1 (by decide)).2 "multiply",
    (h.2.2 (.exc "weather server unreachable") rfl).1⟩

/-- C10: if the initial tool fetch fails for any reason, `main` returns
before creating the agent and before any task invocation; the agent is
created only in runs whose fetch succeeded. -/
theorem tasks_only_after_successful_fetch (e : Env) :
    ((∃ pe, e.fetch = Except.error pe) →
      Event.agentCreated ∉ mainTrace e ∧
      ∀ t, Event.invoke t ∉ mainTrace e) ∧
    (Event.agentCreated ∈ mainTrace e → ∃ ts, getToolsStep e = .ok ts) := by
  constructor
  · rintro ⟨pe, hf⟩
    rw [mainTrace_fetch_error e pe hf]
    constructor
    · cases pe <;> simp [mem_keyCheckEvents]
    · intro t; cases pe <;> simp [mem_keyCheckEvents]
  · intro hmem
    rcases hof : e.fetch with pe | ts
    · exfalso
      rw [mainTrace_fetch_error e pe hof] at hmem
      cases pe <;> simp [mem_keyCheckEvents] at hmem
    · exact ⟨ts, hof⟩

/-- Witness for C10: with every server unreachable, no agent is created and
the math task is never started. -/
theorem tasks_only_after_successful_fetch_witness :
    Event.agentCreated ∉ mainTrace envAllDown ∧
    Event.invoke "math" ∉ mainTrace envAllDown := by
  have h := (tasks_only_after_successful_fetch envAllDown).1
    ⟨.exc "All connections failed", rfl⟩
  exact ⟨h.1, h.2 "math"⟩

/-- C6 counterexample: with every server unreachable the initial fetch fails
(zero usable servers) and the failure is logged, yet the process still exits
with status 0 — `main` just returns from the handler, refuting "exits with a
non-zero status whenever initialization fails". -/
theorem cli_exit_nonzero_counterexample :
    Event.logFetchFailed "All connections failed" ∈ mainTrace envAllDown ∧
    scriptExitCode envAllDown = 0 := by
  constructor
  · rw [mainTrace_fetch_error envAllDown (.exc "All connections failed") rfl]
    simp
  · rfl

/-- C6 (amended): the entry point exits with status 0 when the example tasks
run to completion, and it also exits with status 0 when initialization
fails: the failure is logged, the run stops before the tasks, and `main`
returns normally. -/
theorem cli_always_exits_zero (e : Env) :
    scriptExitCode e = 0 ∧
    ((∃ pe, e.fetch = Except.error pe) →
      (Event.logFetchTimeout ∈ mainTrace e ∨
        ∃ m, Event.logFetchFailed m ∈ mainTrace e) ∧
      Event.done ∉ mainTrace e) := by
  refine ⟨rfl, ?_⟩
  rintro ⟨pe, hf⟩
  constructor
  · cases pe with
    | timeoutError =>
      left
      rw [mainTrace_fetch_error e .timeoutError hf]
      simp
    | exc m =>
      right
      exact ⟨m, by rw [mainTrace_fetch_error e (.exc m) hf]; simp⟩
  · rw [mainTrace_fetch_error e pe hf]
    cases pe <;> simp [mem_keyCheckEvents]

/-- Witness for C6 (amended): the all-servers-down run exits 0 and never
reaches the final "Done" log. -/
theorem cli_always_exits_zero_witness :
    scriptExitCode envAllDown = 0 ∧ Event.done ∉ mainTrace envAllDown :=
  ⟨(cli_always_exits_zero envAllDown).1,
   ((cli_always_exits_zero envAllDown).2
     ⟨.exc "All connections failed", rfl⟩).2⟩

/-- C7 counterexample: with `GROQ_API_KEY` absent from the environment,
startup does not fail — the client logs a warning, proceeds to fetch tools
and runs every task to the final "Done" log, refuting "startup fails rather
than proceeding". -/
theorem missing_key_startup_proceeds :
    storedGroqKey envNoKey = "" ∧
    Event.warnMissingKey ∈ mainTrace envNoKey ∧
    Event.fetchTools ∈ mainTrace envNoKey ∧
    Event.done ∈ mainTrace envNoKey := by
  refine ⟨rfl, ?_, ?_, ?_⟩ <;> decide

/-- C7 (amended): the key is read once at startup with an empty-string
default and written back into the process environment; if it is absent a
single warning is logged and startup proceeds to the tool fetch, and the
warning is logged exactly when the stored key is empty. -/
theorem groq_key_warns_and_proceeds (e : Env) :
    (storedGroqKey e = "" →
      Event.warnMissingKey ∈ mainTrace e ∧ Event.fetchTools ∈ mainTrace e) ∧
    (storedGroqKey e ≠ "" → Event.warnMissingKey ∉ mainTrace e) := by
  constructor
  · intro hk
    constructor
    · exact List.mem_append_left _ (List.mem_append_left _
        (List.mem_append_right _ (by simp [keyCheckEvents, hk])))
    · exact List.mem_append_left _ (List.mem_append_right _ (by simp))
  · intro hk hmem
    rcases hof : e.fetch with pe | ts
    · rw [mainTrace_fetch_error e pe hof] at hmem
      cases pe <;> simp [mem_keyCheckEvents, hk] at hmem
    · rw [mainTrace_fetch_ok e ts hof] at hmem
      cases hag : e.agentOk <;>
        simp [mem_keyCheckEvents, hk, hag, warnMissingKey_not_in_runStep] at hmem

/-- Witness for C7 (amended): in the missing-key run the warning appears and
the fetch still happens. -/
theorem groq_key_warns_and_proceeds_witness :
    Event.warnMissingKey ∈ mainTrace envNoKey ∧
    Event.fetchTools ∈ mainTrace envNoKey :=
  (groq_key_warns_and_proceeds envNoKey).1 rfl
